import Mathlib

/-!
Verification of the Event-Detection & Alert-Fusion Engine of the
Patient-Monitoring-System repository.

The Python sources are shallowly embedded: floats become `ℚ`, Python `None`
becomes `Option`, mutable agent objects become explicit state records and
each `detect` method becomes a state-transition function returning
`Option event × new state`.  Calls to `time.time()` inside one method call
are modelled by a single `now : ℚ` argument.  The two transcendental
helpers (`abs(degrees(arctan2(dx, dy)))` and `np.sqrt`) are abstracted as
function parameters `atan2deg`/`sqrtFn`, so every theorem holds for every
interpretation of them; the orchestrator's `is_nighttime()` clock read and
the heavy numerical kernels (`_analyze_limb_movements` FFT and
`RPPGProcessor.process`) are likewise passed in as oracle arguments, since
the claims treated here only concern the control logic around them.
-/

set_option maxHeartbeats 1000000

namespace PMS

/-- Keypoint of a pose, mirroring `schemas.Keypoint` (x, y, z, confidence,
visibility). -/
structure Keypoint where
  x : ℚ
  y : ℚ
  z : ℚ
  confidence : ℚ
  visibility : ℚ
  deriving DecidableEq, Repr

/-- Bounding box, mirroring `schemas.BoundingBox`. -/
structure BoundingBox where
  x1 : ℚ
  y1 : ℚ
  x2 : ℚ
  y2 : ℚ
  confidence : ℚ
  deriving DecidableEq, Repr

/-- Pose data: the ordered list of (33) keypoints. -/
structure PoseData where
  keypoints : List Keypoint
  deriving DecidableEq, Repr

/-- One tracked detection: bounding box, optional pose, optional face box. -/
structure Detection where
  bbox : BoundingBox
  pose : Option PoseData
  face_bbox : Option BoundingBox
  deriving DecidableEq, Repr

/-- Per-frame metadata handed to every agent (`schemas.FrameMetadata`). -/
structure FrameMetadata where
  frame_id : Nat
  timestamp : ℚ
  width : ℚ
  height : ℚ
  detections : List Detection
  deriving DecidableEq, Repr

/-- Intersection-over-union of two boxes, from `utils/geometry.compute_iou`. -/
def compute_iou (b1 b2 : BoundingBox) : ℚ :=
  let x1 := max b1.x1 b2.x1
  let y1 := max b1.y1 b2.y1
  let x2 := min b1.x2 b2.x2
  let y2 := min b1.y2 b2.y2
  let intersection := max 0 (x2 - x1) * max 0 (y2 - y1)
  let area1 := (b1.x2 - b1.x1) * (b1.y2 - b1.y1)
  let area2 := (b2.x2 - b2.x1) * (b2.y2 - b2.y1)
  let union := area1 + area2 - intersection
  if union > 0 then intersection / union else 0

/-! ## Sliding window buffer (`utils/temporal_buffer.TemporalBuffer`)

A `collections.deque(maxlen=n)`: kept as a list with the OLDEST item first;
appending to a full deque silently drops the leftmost element. -/

/-- State of `TemporalBuffer`: capacity and contents, oldest first. -/
structure TemporalBuffer (α : Type) where
  maxlen : Nat
  buffer : List α
  deriving DecidableEq, Repr

namespace TemporalBuffer

/-- Fresh buffer with the given capacity (`TemporalBuffer.__init__`). -/
def empty (α : Type) (maxlen : Nat) : TemporalBuffer α :=
  ⟨maxlen, []⟩

/-- Append an item, evicting from the left when over capacity
(`TemporalBuffer.add`, i.e. `deque.append` with `maxlen`). -/
def add (b : TemporalBuffer α) (item : α) : TemporalBuffer α :=
  let l := b.buffer ++ [item]
  ⟨b.maxlen, l.drop (l.length - b.maxlen)⟩

/-- Most recent item, `None` when empty (`get_latest`). -/
def get_latest (b : TemporalBuffer α) : Option α :=
  b.buffer.getLast?

/-- Oldest item, `None` when empty (`get_oldest`). -/
def get_oldest (b : TemporalBuffer α) : Option α :=
  b.buffer.head?

/-- All items, oldest first (`get_all`). -/
def get_all (b : TemporalBuffer α) : List α :=
  b.buffer

/-- Most recent `window_size` items (`get_window`), via the Python slice
`list(self.buffer)[-window_size:]`; at `window_size = 0` that slice is
`[-0:]`, i.e. `[0:]`, so the WHOLE buffer is returned. -/
def get_window (b : TemporalBuffer α) (window_size : Nat) : List α :=
  if window_size ≥ b.buffer.length then b.buffer
  else if window_size = 0 then b.buffer
  else b.buffer.drop (b.buffer.length - window_size)

/-- Current number of stored items (`__len__`). -/
def size (b : TemporalBuffer α) : Nat :=
  b.buffer.length

/-- Whether the buffer is at capacity (`is_full`). -/
def is_full (b : TemporalBuffer α) : Bool :=
  b.buffer.length == b.maxlen

/-- Remove every item (`clear`). -/
def clear (b : TemporalBuffer α) : TemporalBuffer α :=
  ⟨b.maxlen, []⟩

/-- Insert a whole list of items in order. -/
def addAll (b : TemporalBuffer α) (items : List α) : TemporalBuffer α :=
  items.foldl add b

end TemporalBuffer

/-! ## Orchestrator (`core/orchestrator.Orchestrator`)

Events of every agent are flattened into one record with optional
domain fields (`hasattr` checks in the source become `Option` matches).
The random `uuid` alert id is omitted (no claim concerns it) and the
`is_nighttime()` clock read is an explicit `nighttime : Bool` argument. -/

/-- Event record covering the fields the orchestrator reads
(`schemas.BaseEvent` plus the domain fields of its subclasses). -/
structure BaseEvent where
  event_type : String
  timestamp : ℚ
  confidence : ℚ
  agent_name : String
  frame_id : Nat
  heart_rate : Option ℚ
  respiratory_rate : Option ℚ
  fall_type : Option String
  state : Option String
  risk_level : Option String
  emotion : Option String
  deriving DecidableEq, Repr

/-- Fusion output (`schemas.ConsolidatedAlert`); `metadata` holds the rule
name or source agent. -/
structure ConsolidatedAlert where
  level : String
  message : String
  timestamp : ℚ
  events : List BaseEvent
  metadata : String
  deriving DecidableEq, Repr

/-- One fusion rule: ordered condition tags, severity level, message. -/
structure RuleConfig where
  conditions : List String
  level : String
  message : String
  deriving DecidableEq, Repr

/-- Orchestrator state: dedup window, rules in insertion order, recorded
alert history, raw event backlog. -/
structure OrchestratorState where
  deduplication_window : ℚ
  rules : List (String × RuleConfig)
  recent_alerts : List ConsolidatedAlert
  event_buffer : List BaseEvent
  deriving DecidableEq, Repr

/-- Truthiness test `ve.heart_rate and ve.heart_rate < 50` of the
`low_heart_rate` condition (Python treats `None` and `0.0` as falsy). -/
def vitalLowHR (e : BaseEvent) : Bool :=
  match e.heart_rate with
  | some h => decide (¬ h = 0) && decide (h < 50)
  | none => false

/-- Condition loop of `Orchestrator._apply_rule`: walk the rule's condition
tags accumulating matched events, aborting with `none` on any unmet
condition; unrecognized tags fall through the `if`/`elif` chain. -/
def evalConditions (nighttime : Bool) (events : List BaseEvent) :
    List String → List BaseEvent → Option (List BaseEvent)
  | [], matched => some matched
  | c :: rest, matched =>
    if c = "fall_detected" then
      let fall_events := events.filter (fun e => e.event_type == "fall_detection")
      if fall_events.isEmpty then none
      else evalConditions nighttime events rest (matched ++ fall_events)
    else if c = "low_heart_rate" then
      let vital_events := events.filter (fun e => e.event_type == "vital_signs")
      if vital_events.isEmpty then none
      else
        match vital_events.find? vitalLowHR with
        | some ve => evalConditions nighttime events rest (matched ++ [ve])
        | none => none
    else if c = "bed_exit" then
      let bed_events := events.filter (fun e => e.event_type == "bed_exit")
      if bed_events.isEmpty then none
      else evalConditions nighttime events rest (matched ++ bed_events)
    else if c = "nighttime" then
      if nighttime then evalConditions nighttime events rest matched else none
    else if c = "immobility_alert" then
      let immobility_events := events.filter (fun e => e.event_type == "immobility")
      if immobility_events.isEmpty then none
      else evalConditions nighttime events rest (matched ++ immobility_events)
    else if c = "seizure" then
      let seizure_events :=
        events.filter (fun e => e.event_type == "seizure_detection")
      if seizure_events.isEmpty then none
      else evalConditions nighttime events rest (matched ++ seizure_events)
    else evalConditions nighttime events rest matched

/-- Orchestrator's `_apply_rule`: a consolidated alert carrying the matched
events when every condition holds and at least one event matched. -/
def applyRule (nighttime : Bool) (now : ℚ) (rule_name : String)
    (rc : RuleConfig) (events : List BaseEvent) : Option ConsolidatedAlert :=
  match evalConditions nighttime events rc.conditions [] with
  | none => none
  | some matched =>
    if matched.isEmpty then none
    else some ⟨rc.level, rc.message, now, matched, rule_name⟩

/-- Type→severity lookup of `_create_individual_alert`. -/
def individualLevel (t : String) : String :=
  if t = "fall_detection" then "HIGH"
  else if t = "seizure_detection" then "CRITICAL"
  else if t = "bed_exit" then "MEDIUM"
  else if t = "immobility" then "MEDIUM"
  else if t = "emotion_detection" then "INFO"
  else if t = "vital_signs" then "INFO"
  else "INFO"

/-- Render an optional numeric field the way the vital-signs message does
(`N/A` when the attribute is absent). -/
def optRatStr (o : Option ℚ) : String :=
  match o with
  | some q => toString q
  | none => "N/A"

/-- Type→message template of `_create_individual_alert`. -/
def individualMessage (e : BaseEvent) : String :=
  if e.event_type = "fall_detection" then
    "Fall detected: " ++ e.fall_type.getD "unknown"
  else if e.event_type = "seizure_detection" then "Seizure activity detected"
  else if e.event_type = "bed_exit" then "Bed exit: " ++ e.state.getD "unknown"
  else if e.event_type = "immobility" then
    "Immobility detected: " ++ e.risk_level.getD "unknown" ++ " risk"
  else if e.event_type = "emotion_detection" then
    "Emotion: " ++ e.emotion.getD "unknown"
  else if e.event_type = "vital_signs" then
    "HR: " ++ optRatStr e.heart_rate ++ " bpm, RR: " ++ optRatStr e.respiratory_rate
  else "Event: " ++ e.event_type

/-- Orchestrator's `_create_individual_alert` (its timestamp is the EVENT's
timestamp, not the current time). -/
def createIndividualAlert (e : BaseEvent) : ConsolidatedAlert :=
  ⟨individualLevel e.event_type, individualMessage e, e.timestamp, [e],
    e.agent_name⟩

/-- Orchestrator's `_is_covered_by_rules`: every type except the two
informational ones is assumed rule-covered. -/
def isCoveredByRules (e : BaseEvent) : Bool :=
  !(e.event_type == "emotion_detection" || e.event_type == "vital_signs")

/-- Orchestrator's `_is_duplicate`: a recorded alert with the same message
within the deduplication window of the current time. -/
def isDuplicate (window : ℚ) (recent : List ConsolidatedAlert) (now : ℚ)
    (a : ConsolidatedAlert) : Bool :=
  recent.any (fun r => decide (now - r.timestamp < window) && (r.message == a.message))

/-- One produced alert considered for output and history `(out, recent)`:
dropped when `_is_duplicate`, otherwise appended to both
(`_add_to_recent`). -/
def considerAlert (window now : ℚ)
    (p : List ConsolidatedAlert × List ConsolidatedAlert)
    (a : ConsolidatedAlert) : List ConsolidatedAlert × List ConsolidatedAlert :=
  if isDuplicate window p.2 now a then p else (p.1 ++ [a], p.2 ++ [a])

/-- Orchestrator's `process_events`: early return on an empty batch, rule
pass, individual pass for uncovered events, then history compaction. -/
def processEvents (nighttime : Bool) (now : ℚ) (st : OrchestratorState)
    (events : List BaseEvent) : List ConsolidatedAlert × OrchestratorState :=
  if events = [] then ([], st)
  else
    let p1 := st.rules.foldl (fun p r =>
      match applyRule nighttime now r.1 r.2 events with
      | some a => considerAlert st.deduplication_window now p a
      | none => p) ([], st.recent_alerts)
    let p2 := events.foldl (fun p e =>
      if isCoveredByRules e then p
      else considerAlert st.deduplication_window now p (createIndividualAlert e))
      p1
    let recent := p2.2.filter
      (fun a => decide (now - a.timestamp < st.deduplication_window * 2))
    (p2.1, ⟨st.deduplication_window, st.rules, recent,
      st.event_buffer ++ events⟩)

/-- Default rules of `ORCHESTRATOR_CONFIG` in insertion order. -/
def defaultRules : List (String × RuleConfig) :=
  [("critical_fall",
     ⟨["fall_detected", "low_heart_rate"], "CRITICAL",
      "Critical: Fall detected with abnormal vital signs"⟩),
   ("bed_exit_night",
     ⟨["bed_exit", "nighttime"], "HIGH",
      "High Alert: Patient exited bed during nighttime"⟩),
   ("prolonged_immobility",
     ⟨["immobility_alert"], "MEDIUM",
      "Warning: Prolonged immobility detected"⟩),
   ("seizure_detected",
     ⟨["seizure"], "CRITICAL", "Critical: Seizure activity detected"⟩)]

/-- Freshly constructed orchestrator under the default configuration. -/
def initialOrchestrator : OrchestratorState :=
  ⟨5, defaultRules, [], []⟩

/-- Sample fall event for concrete orchestrator runs. -/
def fallEventEx : BaseEvent :=
  ⟨"fall_detection", 100, 1, "fall_detection", 1, none, none, some "fall",
    none, none, none⟩

/-- Sample emotion event for concrete orchestrator runs. -/
def emotionEventEx : BaseEvent :=
  ⟨"emotion_detection", 100, 1, "emotion_detection", 1, none, none, none,
    none, none, some "happy"⟩

/-- Stale recorded alert, far older than twice the deduplication window. -/
def staleAlertEx : ConsolidatedAlert :=
  ⟨"HIGH", "stale", 0, [], "orchestrator"⟩

/-- Orchestrator state holding only the stale alert. -/
def staleStateEx : OrchestratorState :=
  ⟨5, defaultRules, [staleAlertEx], []⟩

/-! ## Seizure agent trajectory extraction
(`agents/seizure_detection_agent.SeizureDetectionAgent._extract_trajectories`) -/

/-- Positions gathered for one frame of `_extract_trajectories`: the (x, y)
of each limb keypoint whose index is in range and whose visibility exceeds
0.5. -/
def visiblePositions (pose : PoseData) (keypoint_indices : List Nat) :
    List (ℚ × ℚ) :=
  keypoint_indices.filterMap (fun idx =>
    match pose.keypoints.get? idx with
    | some kp => if kp.visibility > 1/2 then some (kp.x, kp.y) else none
    | none => none)

/-- Mean of a list of positions (`np.mean(positions, axis=0)`). -/
def meanPosition (ps : List (ℚ × ℚ)) : ℚ × ℚ :=
  ((ps.map Prod.fst).sum / ps.length, (ps.map Prod.snd).sum / ps.length)

/-- Frame loop of `_extract_trajectories`: one averaged position per
buffered frame, aborting with `None` on a frame with no visible keypoint. -/
def buildTrajectories (keypoint_indices : List Nat) :
    List PoseData → Option (List (ℚ × ℚ))
  | [] => some []
  | p :: rest =>
    let positions := visiblePositions p keypoint_indices
    if positions.isEmpty then none
    else (buildTrajectories keypoint_indices rest).map
      (fun t => meanPosition positions :: t)

/-- Seizure agent's `_extract_trajectories`: `None` unless a full
`buffer_size`-length trajectory was collected. -/
def extractTrajectories (buffer_size : Nat) (buffer : List PoseData)
    (keypoint_indices : List Nat) : Option (List (ℚ × ℚ)) :=
  (buildTrajectories keypoint_indices buffer).bind
    (fun t => if t.length < buffer_size then none else some t)

/-- Sample pose whose three keypoints are all fully visible. -/
def exPoseAllVisible : PoseData :=
  ⟨[⟨0, 0, 0, 1, 1⟩, ⟨2, 2, 0, 1, 1⟩, ⟨4, 4, 0, 1, 1⟩]⟩

/-- Sample pose whose third keypoint is occluded (visibility 0 < 0.5). -/
def exPosePartial : PoseData :=
  ⟨[⟨0, 0, 0, 1, 1⟩, ⟨2, 2, 0, 1, 1⟩, ⟨100, 100, 0, 1, 0⟩]⟩

/-! ## Fall detection agent (`agents/fall_detection_agent.FallDetectionAgent`)

The angle helper `abs(degrees(arctan2(dx, dy)))` is abstracted as a
function argument `atan2deg : ℚ → ℚ → ℚ` (every theorem below holds for
every interpretation of it). -/

/-- Keypoint lookup `pose.keypoints[i]`; total model, only reached with
full 33-keypoint poses. -/
def kpAt (pose : PoseData) (i : Nat) : Keypoint :=
  pose.keypoints.getD i ⟨0, 0, 0, 0, 0⟩

/-- Pose flattened to `[x, y, z, ...]` (`_get_pose_vector`). -/
def getPoseVector (pose : PoseData) : List ℚ :=
  (pose.keypoints.map (fun kp => [kp.x, kp.y, kp.z])).flatten

/-- One buffered `{pose, timestamp, bbox}` sample of the fall agent. -/
structure FallSample where
  pose : PoseData
  timestamp : ℚ
  bbox : BoundingBox
  deriving DecidableEq, Repr

/-- Fall agent state: base-agent fields, configuration thresholds, pose
window, cooldown clock. -/
structure FallState where
  enabled : Bool
  frame_count : Nat
  sequence_length : Nat
  confidence_threshold : ℚ
  fall_angle_threshold : ℚ
  hip_height_threshold : ℚ
  velocity_threshold : ℚ
  pose_buffer : TemporalBuffer FallSample
  last_event_time : ℚ
  event_cooldown : ℚ
  deriving DecidableEq, Repr

/-- Event emitted by the fall agent (`schemas.FallDetectionEvent`). -/
structure FallDetectionEvent where
  event_type : String
  timestamp : ℚ
  confidence : ℚ
  agent_name : String
  frame_id : Nat
  fall_type : String
  bbox : BoundingBox
  pose_vector : List ℚ
  torso_angle : ℚ
  hip_height : ℚ
  vertical_velocity : ℚ
  deriving DecidableEq, Repr

/-- Fall agent's `_compute_vertical_velocity`: absolute hip-midpoint y
displacement between the oldest and newest buffered samples over elapsed
time, scaled by 1/100 and capped at 1. -/
def computeVerticalVelocity (buffer : TemporalBuffer FallSample) : ℚ :=
  if buffer.size < 2 then 0
  else
    match buffer.get_oldest, buffer.get_latest with
    | some first_frame, some last_frame =>
      let first_hip_y :=
        ((kpAt first_frame.pose 23).y + (kpAt first_frame.pose 24).y) / 2
      let last_hip_y :=
        ((kpAt last_frame.pose 23).y + (kpAt last_frame.pose 24).y) / 2
      let time_diff := last_frame.timestamp - first_frame.timestamp
      if time_diff > 0 then min 1 (|last_hip_y - first_hip_y| / time_diff / 100)
      else 0
    | _, _ => 0

/-- Indicator record returned by `_analyze_fall_indicators`. -/
structure FallIndicators where
  torso_angle : ℚ
  hip_height : ℚ
  vertical_velocity : ℚ
  is_lying : Bool
  is_falling : Bool
  is_near_fall : Bool
  lying_confidence : ℚ
  fall_confidence : ℚ
  near_fall_confidence : ℚ
  deriving DecidableEq, Repr

/-- Fall agent's `_analyze_fall_indicators` on the current pose and the
(already updated) pose window. -/
def analyzeFallIndicators (atan2deg : ℚ → ℚ → ℚ) (st : FallState)
    (pose : PoseData) (frame_height : ℚ) : FallIndicators :=
  let left_shoulder := kpAt pose 11
  let right_shoulder := kpAt pose 12
  let left_hip := kpAt pose 23
  let right_hip := kpAt pose 24
  let mid_shoulder_y := (left_shoulder.y + right_shoulder.y) / 2
  let mid_hip_y := (left_hip.y + right_hip.y) / 2
  let mid_shoulder_x := (left_shoulder.x + right_shoulder.x) / 2
  let mid_hip_x := (left_hip.x + right_hip.x) / 2
  let torso_angle :=
    |atan2deg (mid_shoulder_x - mid_hip_x) (mid_shoulder_y - mid_hip_y)|
  let hip_height := 1 - mid_hip_y / frame_height
  let vertical_velocity := computeVerticalVelocity st.pose_buffer
  { torso_angle := torso_angle
    hip_height := hip_height
    vertical_velocity := vertical_velocity
    is_lying := decide (hip_height < st.hip_height_threshold) &&
      decide (torso_angle > st.fall_angle_threshold)
    is_falling := decide (vertical_velocity > st.velocity_threshold) &&
      decide (torso_angle > st.fall_angle_threshold / 2)
    is_near_fall := decide (vertical_velocity > st.velocity_threshold * 0.7) &&
      decide (torso_angle > st.fall_angle_threshold * 0.7)
    lying_confidence := min 1 ((1 - hip_height) * (torso_angle / 90))
    fall_confidence := min 1 (vertical_velocity * (torso_angle / 90))
    near_fall_confidence := min 1 (vertical_velocity * 0.8) }

/-- Priority classification chain of `detect` (lines 91-102): lying, else
fall, else near-fall, with the matching confidence. -/
def fallClassify (ind : FallIndicators) : Option (String × ℚ) :=
  if ind.is_lying then some ("lying", ind.lying_confidence)
  else if ind.is_falling then some ("fall", ind.fall_confidence)
  else if ind.is_near_fall then some ("near_fall", ind.near_fall_confidence)
  else none

/-- Fall agent state after the frame-counter increment and the buffer push
of one `{pose, timestamp, bbox}` sample. -/
def fallStateAfterSample (st : FallState) (pose : PoseData) (ts : ℚ)
    (bbox : BoundingBox) : FallState :=
  {st with frame_count := st.frame_count + 1,
           pose_buffer := st.pose_buffer.add ⟨pose, ts, bbox⟩}

/-- Fall agent's `detect` as a state transition. -/
def fallDetect (atan2deg : ℚ → ℚ → ℚ) (now : ℚ) (st : FallState)
    (meta : FrameMetadata) : Option FallDetectionEvent × FallState :=
  if !st.enabled then (none, st)
  else
    match meta.detections with
    | [] => (none, {st with frame_count := st.frame_count + 1})
    | detection :: _ =>
      match detection.pose with
      | none => (none, {st with frame_count := st.frame_count + 1})
      | some pose =>
        let st2 : FallState :=
          fallStateAfterSample st pose meta.timestamp detection.bbox
        if st2.pose_buffer.size < st2.sequence_length then (none, st2)
        else if now - st2.last_event_time < st2.event_cooldown then (none, st2)
        else
          let ind := analyzeFallIndicators atan2deg st2 pose meta.height
          match fallClassify ind with
          | some (fall_type, confidence) =>
            if confidence > st2.confidence_threshold then
              (some ⟨"fall_detection", meta.timestamp, confidence,
                 "fall_detection", meta.frame_id, fall_type, detection.bbox,
                 getPoseVector pose, ind.torso_angle, ind.hip_height,
                 ind.vertical_velocity⟩,
               {st2 with last_event_time := now})
            else (none, st2)
          | none => (none, st2)

/-- Classification in the claim's own words: lying when hip height is
under the hip threshold and torso angle above the fall-angle threshold;
else fall when vertical velocity exceeds the velocity threshold and torso
angle exceeds half the fall-angle threshold; else near-fall when vertical
velocity exceeds 0.7 times the velocity threshold and torso angle exceeds
0.7 times the fall-angle threshold. -/
def classifyFallSpec (fall_angle_threshold hip_height_threshold
    velocity_threshold torso_angle hip_height vertical_velocity : ℚ) :
    Option String :=
  if hip_height < hip_height_threshold ∧ torso_angle > fall_angle_threshold
  then some "lying"
  else if vertical_velocity > velocity_threshold ∧
      torso_angle > fall_angle_threshold / 2 then some "fall"
  else if vertical_velocity > 0.7 * velocity_threshold ∧
      torso_angle > 0.7 * fall_angle_threshold then some "near_fall"
  else none

/-- Confidence the code attaches to each classification label. -/
def fallConfidenceOf (ind : FallIndicators) (ft : String) : ℚ :=
  if ft = "lying" then ind.lying_confidence
  else if ft = "fall" then ind.fall_confidence
  else ind.near_fall_confidence

/-- Angle oracle for the C4 witness: constant 80 degrees. -/
def atan2degW : ℚ → ℚ → ℚ := fun _ _ => 80

/-- Witness pose: 25 identical keypoints at (50, 95), fully visible. -/
def poseW : PoseData := ⟨List.replicate 25 ⟨50, 95, 0, 1, 1⟩⟩

/-- Witness detection wrapping `poseW`. -/
def detectionW : Detection := ⟨⟨0, 0, 10, 10, 1⟩, some poseW, none⟩

/-- Witness frame metadata: one detection, 100×100 frame, timestamp 0. -/
def fallMetaW : FrameMetadata := ⟨1, 0, 100, 100, [detectionW]⟩

/-- Witness fall-agent state: window length 1, thresholds at their config
defaults, cooldown long expired. -/
def fallStW : FallState := ⟨true, 0, 1, 7/10, 60, 3/10, 1/2, ⟨1, []⟩, -10, 3⟩

/-! ## Bed exit agent (`agents/bed_exit_agent.BedExitAgent`) -/

/-- Bed-exit agent state: base-agent fields, configuration, state machine
position, calibration accumulators. -/
structure BedExitState where
  enabled : Bool
  frame_count : Nat
  bed_region : Option BoundingBox
  transition_confidence : ℚ
  sitting_angle_threshold : ℚ
  standing_height_threshold : ℚ
  alert_on_states : List String
  current_state : String
  state_start_time : ℚ
  last_transition_time : ℚ
  calibration_frames : Nat
  calibration_bboxes : List BoundingBox
  deriving DecidableEq, Repr

/-- Event emitted by the bed-exit agent (`schemas.BedExitEvent`). -/
structure BedExitEvent where
  event_type : String
  timestamp : ℚ
  confidence : ℚ
  agent_name : String
  frame_id : Nat
  state : String
  previous_state : String
  transition : Bool
  duration_in_state : ℚ
  bed_region : BoundingBox
  person_bbox : BoundingBox
  deriving DecidableEq, Repr

/-- Bed-exit agent's `_determine_state`: STANDING, else OUT_OF_BED by bed
overlap, else SITTING_UP, else IN_BED. -/
def determineState (atan2deg : ℚ → ℚ → ℚ) (st : BedExitState)
    (person_bbox : BoundingBox) (pose : PoseData) (frame_height : ℚ) :
    String :=
  let left_hip := kpAt pose 23
  let right_hip := kpAt pose 24
  let left_shoulder := kpAt pose 11
  let right_shoulder := kpAt pose 12
  let mid_hip_y := (left_hip.y + right_hip.y) / 2
  let mid_shoulder_y := (left_shoulder.y + right_shoulder.y) / 2
  let hip_height := 1 - mid_hip_y / frame_height
  let torso_angle :=
    |atan2deg ((left_shoulder.x + right_shoulder.x) / 2 -
        (left_hip.x + right_hip.x) / 2)
      (mid_shoulder_y - mid_hip_y)|
  let overlap :=
    match st.bed_region with
    | some br => compute_iou person_bbox br
    | none => 0
  if hip_height > st.standing_height_threshold ∧ torso_angle < 30
  then "STANDING"
  else if overlap < 3/10 then "OUT_OF_BED"
  else if torso_angle > st.sitting_angle_threshold ∧ hip_height > 3/10
  then "SITTING_UP"
  else "IN_BED"

/-- Bed-exit agent's `_calibrate_bed_region`: accumulate bounding boxes,
and after 30 frames set the bed region to the mean box expanded by 10%
per side; never emits an event. -/
def calibrateBedRegion (st : BedExitState) (meta : FrameMetadata) :
    Option BedExitEvent × BedExitState :=
  match meta.detections with
  | [] => (none, st)
  | detection :: _ =>
    let st1 : BedExitState :=
      {st with calibration_bboxes := st.calibration_bboxes ++ [detection.bbox],
               calibration_frames := st.calibration_frames + 1}
    if st1.calibration_frames ≥ 30 then
      let n : ℚ := (st1.calibration_bboxes.length : ℚ)
      let avg_x1 := (st1.calibration_bboxes.map BoundingBox.x1).sum / n
      let avg_y1 := (st1.calibration_bboxes.map BoundingBox.y1).sum / n
      let avg_x2 := (st1.calibration_bboxes.map BoundingBox.x2).sum / n
      let avg_y2 := (st1.calibration_bboxes.map BoundingBox.y2).sum / n
      let width := avg_x2 - avg_x1
      let height := avg_y2 - avg_y1
      let region : BoundingBox :=
        ⟨avg_x1 - width * (1/10), avg_y1 - height * (1/10),
         avg_x2 + width * (1/10), avg_y2 + height * (1/10), 1⟩
      (none, {st1 with bed_region := some region})
    else (none, st1)

/-- Bed-exit agent's `detect` as a state transition. -/
def bedExitDetect (atan2deg : ℚ → ℚ → ℚ) (now : ℚ) (st : BedExitState)
    (meta : FrameMetadata) : Option BedExitEvent × BedExitState :=
  if !st.enabled then (none, st)
  else
    let st1 : BedExitState := {st with frame_count := st.frame_count + 1}
    match st.bed_region with
    | none => calibrateBedRegion st1 meta
    | some br =>
      match meta.detections with
      | [] => (none, st1)
      | detection :: _ =>
        match detection.pose with
        | none => (none, st1)
        | some pose =>
          let new_state :=
            determineState atan2deg st1 detection.bbox pose meta.height
          if new_state ≠ st1.current_state then
            let st2 : BedExitState :=
              {st1 with current_state := new_state,
                        last_transition_time := now,
                        state_start_time := now}
            if new_state ∈ st1.alert_on_states then
              (some ⟨"bed_exit", meta.timestamp, st1.transition_confidence,
                 "bed_exit", meta.frame_id, new_state, st.current_state, true,
                 0, br, detection.bbox⟩, st2)
            else (none, st2)
          else (none, st1)

/-- Angle oracle for the C5 witness: constant 0 degrees. -/
def atan2degBW : ℚ → ℚ → ℚ := fun _ _ => 0

/-- Witness bed region. -/
def bedBoxW : BoundingBox := ⟨0, 0, 10, 10, 1⟩

/-- Witness detection: person box equal to the bed region, `poseW` pose. -/
def bedDetW : Detection := ⟨bedBoxW, some poseW, none⟩

/-- Witness bed-exit state: calibrated, default thresholds, in bed. -/
def bedStW : BedExitState :=
  ⟨true, 0, some bedBoxW, 7/10, 45, 6/10, ["STANDING", "OUT_OF_BED"],
   "IN_BED", 0, 0, 0, []⟩

/-- Witness frame metadata for the bed-exit agent. -/
def bedMetaW : FrameMetadata := ⟨1, 0, 100, 100, [bedDetW]⟩

/-- Result record of `_analyze_limb_movements`, passed to the temporal
logic as an oracle (the FFT kernel itself is not modelled). -/
structure SeizureIndicators where
  seizure_detected : Bool
  affected_limbs : List String
  magnitude : ℚ
  dominant_frequency : ℚ
  confidence : ℚ
  deriving DecidableEq, Repr

/-- One buffered `{pose, timestamp}` sample of the seizure agent. -/
structure SeizureSample where
  pose : PoseData
  timestamp : ℚ
  deriving DecidableEq, Repr

/-- Seizure agent state. -/
structure SeizureState where
  enabled : Bool
  frame_count : Nat
  buffer_size : Nat
  duration_threshold : ℚ
  confidence_threshold : ℚ
  affected_limbs_min : Nat
  pose_buffer : TemporalBuffer SeizureSample
  seizure_start_time : Option ℚ
  last_event_time : ℚ
  event_cooldown : ℚ
  deriving DecidableEq, Repr

/-- Event emitted by the seizure agent (`schemas.SeizureDetectionEvent`). -/
structure SeizureDetectionEvent where
  event_type : String
  timestamp : ℚ
  confidence : ℚ
  agent_name : String
  frame_id : Nat
  seizure_detected : Bool
  motion_frequency : ℚ
  affected_limbs : List String
  duration : ℚ
  magnitude : ℚ
  deriving DecidableEq, Repr

/-- Seizure agent state after the frame-counter increment and buffer push. -/
def seizureStateAfterSample (st : SeizureState) (pose : PoseData) (ts : ℚ) :
    SeizureState :=
  {st with frame_count := st.frame_count + 1,
           pose_buffer := st.pose_buffer.add ⟨pose, ts⟩}

/-- Seizure agent's `detect` as a state transition; `indicators` is the
`_analyze_limb_movements` result for the current buffer. -/
def seizureDetect (indicators : SeizureIndicators) (now : ℚ)
    (st : SeizureState) (meta : FrameMetadata) :
    Option SeizureDetectionEvent × SeizureState :=
  if !st.enabled then (none, st)
  else
    match meta.detections with
    | [] => (none, {st with frame_count := st.frame_count + 1})
    | detection :: _ =>
      match detection.pose with
      | none => (none, {st with frame_count := st.frame_count + 1})
      | some pose =>
        let st2 : SeizureState := seizureStateAfterSample st pose meta.timestamp
        if st2.pose_buffer.size < st2.buffer_size then (none, st2)
        else if now - st2.last_event_time < st2.event_cooldown then (none, st2)
        else if indicators.seizure_detected then
          let start := st2.seizure_start_time.getD now
          let st3 : SeizureState := {st2 with seizure_start_time := some start}
          let duration := now - start
          if duration > st3.duration_threshold then
            (some ⟨"seizure_detection", meta.timestamp, indicators.confidence,
               "seizure_detection", meta.frame_id, true,
               indicators.dominant_frequency, indicators.affected_limbs,
               duration, indicators.magnitude⟩,
             {st3 with last_event_time := now})
          else (none, st3)
        else (none, {st2 with seizure_start_time := none})

/-- Witness indicator record: seizure condition true this frame. -/
def indW : SeizureIndicators := ⟨true, ["left_arm", "right_arm"], 1, 5, 1⟩

/-- Witness seizure state: window length 1, episode running since -10 s,
cooldown long expired. -/
def seizStW : SeizureState :=
  ⟨true, 0, 1, 5, 3/4, 2, ⟨1, []⟩, some (-10), -100, 10⟩

/-! ## Vital signs (rPPG) agent (`agents/vital_signs_agent.VitalSignsAgent`)

The numerical kernel `RPPGProcessor.process` is passed in as an oracle
`processResult`; the face crop is modelled by its clipped integer
rectangle. -/

/-- Vitals dictionary returned by `RPPGProcessor.process`. -/
structure VitalsResult where
  heart_rate : ℚ
  respiratory_rate : ℚ
  signal_quality : ℚ
  hr_confidence : ℚ
  rr_confidence : ℚ
  deriving DecidableEq, Repr

/-- Clipped integer face crop rectangle buffered by the agent. -/
structure FaceROI where
  x1 : ℤ
  y1 : ℤ
  x2 : ℤ
  y2 : ℤ
  deriving DecidableEq, Repr

/-- Vital-signs agent state. -/
structure VitalsState where
  enabled : Bool
  frame_count : Nat
  window_size : Nat
  hr_lo : ℚ
  hr_hi : ℚ
  rr_lo : ℚ
  rr_hi : ℚ
  signal_quality_threshold : ℚ
  update_interval : ℤ
  face_roi_buffer : TemporalBuffer FaceROI
  last_update_frame : Nat
  deriving DecidableEq, Repr

/-- Event emitted by the vital-signs agent (`schemas.VitalSignsEvent`). -/
structure VitalSignsEvent where
  event_type : String
  timestamp : ℚ
  confidence : ℚ
  agent_name : String
  frame_id : Nat
  heart_rate : ℚ
  respiratory_rate : ℚ
  signal_quality : ℚ
  hr_confidence : ℚ
  rr_confidence : ℚ
  deriving DecidableEq, Repr

/-- Python `int()` float-to-int conversion: truncation toward zero. -/
def intTrunc (q : ℚ) : ℤ :=
  if q ≥ 0 then ⌊q⌋ else ⌈q⌉

/-- Face crop rectangle after the clamping of `detect` lines 74-76. -/
def cropOf (frame_width frame_height : ℤ) (fb : BoundingBox) : FaceROI :=
  ⟨max 0 (intTrunc fb.x1), max 0 (intTrunc fb.y1),
   min frame_width (intTrunc fb.x2), min frame_height (intTrunc fb.y2)⟩

/-- Vital-signs agent's `detect` as a state transition; `processResult` is
the oracle value of `self.rppg_processor.process(...)` on the buffered
window. -/
def vitalsDetect (processResult : Option VitalsResult) (st : VitalsState)
    (frame_width frame_height : ℤ) (meta : FrameMetadata) :
    Option VitalSignsEvent × VitalsState :=
  if !st.enabled then (none, st)
  else
    let st1 : VitalsState := {st with frame_count := st.frame_count + 1}
    match meta.detections with
    | [] => (none, st1)
    | detection :: _ =>
      match detection.face_bbox with
      | none => (none, st1)
      | some face_bbox =>
        let roi := cropOf frame_width frame_height face_bbox
        if roi.x2 ≤ roi.x1 ∨ roi.y2 ≤ roi.y1 then (none, st1)
        else
          let st2 : VitalsState :=
            {st1 with face_roi_buffer := st1.face_roi_buffer.add roi}
          if (st2.frame_count : ℤ) - st2.last_update_frame
              < st2.update_interval then (none, st2)
          else if st2.face_roi_buffer.size < st2.window_size then (none, st2)
          else
            match processResult with
            | none => (none, st2)
            | some vital_signs =>
              if (st2.hr_lo ≤ vital_signs.heart_rate ∧
                    vital_signs.heart_rate ≤ st2.hr_hi) ∧
                  (st2.rr_lo ≤ vital_signs.respiratory_rate ∧
                    vital_signs.respiratory_rate ≤ st2.rr_hi) ∧
                  vital_signs.signal_quality ≥ st2.signal_quality_threshold
              then
                (some ⟨"vital_signs", meta.timestamp,
                   vital_signs.signal_quality, "vital_signs", meta.frame_id,
                   vital_signs.heart_rate, vital_signs.respiratory_rate,
                   vital_signs.signal_quality, vital_signs.hr_confidence,
                   vital_signs.rr_confidence⟩,
                 {st2 with last_update_frame := st2.frame_count})
              else (none, st2)

/-- Gate conditions under which a `detect` call runs the rPPG processing:
enabled, a faced detection with a valid crop, update interval elapsed at
the incremented counter, and a full window after the append. -/
def vitalsReaches (st : VitalsState) (frame_width frame_height : ℤ)
    (meta : FrameMetadata) : Prop :=
  st.enabled = true ∧
  ∃ detection rest face_bbox,
    meta.detections = detection :: rest ∧
    detection.face_bbox = some face_bbox ∧
    ¬ ((cropOf frame_width frame_height face_bbox).x2
        ≤ (cropOf frame_width frame_height face_bbox).x1 ∨
       (cropOf frame_width frame_height face_bbox).y2
        ≤ (cropOf frame_width frame_height face_bbox).y1) ∧
    ¬ (((st.frame_count : ℤ) + 1) - st.last_update_frame
        < st.update_interval) ∧
    ¬ ((st.face_roi_buffer.add
        (cropOf frame_width frame_height face_bbox)).size < st.window_size)

/-- Vitals state after the frame-counter increment and the ROI append. -/
def vitalsStateAfterSample (st : VitalsState) (roi : FaceROI) : VitalsState :=
  {st with frame_count := st.frame_count + 1,
           face_roi_buffer := st.face_roi_buffer.add roi}

/-! ## Immobility agent (`agents/immobility_agent.ImmobilityAgent`)

`np.sqrt` is abstracted as a function argument `sqrtFn`. -/

/-- Immobility agent state. -/
structure ImmobilityState where
  enabled : Bool
  frame_count : Nat
  movement_threshold : ℚ
  alert_duration : ℚ
  warning_duration : ℚ
  check_interval : ℚ
  posture_change_threshold : ℚ
  last_pose : Option PoseData
  last_movement_time : ℚ
  last_check_time : ℚ
  posture_change_count : Nat
  current_posture : String
  pose_buffer : TemporalBuffer SeizureSample
  deriving DecidableEq, Repr

/-- Event emitted by the immobility agent (`schemas.ImmobilityEvent`). -/
structure ImmobilityEvent where
  event_type : String
  timestamp : ℚ
  confidence : ℚ
  agent_name : String
  frame_id : Nat
  immobility_duration : ℚ
  last_movement_time : ℚ
  risk_level : String
  posture : String
  movement_magnitude : ℚ
  posture_change_count : Nat
  deriving DecidableEq, Repr

/-- Immobility agent's `_compute_movement`: mean Euclidean displacement of
the five key landmarks visible in both poses. -/
def computeMovement (sqrtFn : ℚ → ℚ) (pose1 pose2 : PoseData) : ℚ :=
  let key_indices := [0, 11, 12, 23, 24]
  let displacements := key_indices.filterMap (fun idx =>
    let kp1 := kpAt pose1 idx
    let kp2 := kpAt pose2 idx
    if kp1.visibility > 1/2 ∧ kp2.visibility > 1/2 then
      some (sqrtFn ((kp1.x - kp2.x) ^ 2 + (kp1.y - kp2.y) ^ 2))
    else none)
  if displacements.length > 0 then
    displacements.sum / displacements.length
  else 0

/-- Immobility agent's `_determine_posture`. -/
def determinePosture (atan2deg : ℚ → ℚ → ℚ) (pose : PoseData) : String :=
  let left_shoulder := kpAt pose 11
  let right_shoulder := kpAt pose 12
  let left_hip := kpAt pose 23
  let right_hip := kpAt pose 24
  let mid_shoulder_y := (left_shoulder.y + right_shoulder.y) / 2
  let mid_hip_y := (left_hip.y + right_hip.y) / 2
  let mid_shoulder_x := (left_shoulder.x + right_shoulder.x) / 2
  let mid_hip_x := (left_hip.x + right_hip.x) / 2
  let torso_angle :=
    |atan2deg (mid_shoulder_x - mid_hip_x) (mid_shoulder_y - mid_hip_y)|
  if torso_angle > 60 then "lying_side"
  else if mid_shoulder_y < mid_hip_y then "prone"
  else "supine"

/-- Immobility agent's `detect` as a state transition. -/
def immobilityDetect (atan2deg : ℚ → ℚ → ℚ) (sqrtFn : ℚ → ℚ) (now : ℚ)
    (st : ImmobilityState) (meta : FrameMetadata) :
    Option ImmobilityEvent × ImmobilityState :=
  if !st.enabled then (none, st)
  else
    let st1 : ImmobilityState := {st with frame_count := st.frame_count + 1}
    match meta.detections with
    | [] => (none, st1)
    | detection :: _ =>
      match detection.pose with
      | none => (none, st1)
      | some pose =>
        let st2 : ImmobilityState :=
          {st1 with pose_buffer := st1.pose_buffer.add ⟨pose, meta.timestamp⟩}
        let st3 : ImmobilityState :=
          match st2.last_pose with
          | none => st2
          | some last_pose =>
            let movement_magnitude := computeMovement sqrtFn last_pose pose
            let stm : ImmobilityState :=
              if movement_magnitude > st2.movement_threshold
              then {st2 with last_movement_time := now} else st2
            let new_posture := determinePosture atan2deg pose
            if new_posture ≠ stm.current_posture then
              {stm with posture_change_count := stm.posture_change_count + 1,
                        current_posture := new_posture}
            else stm
        let st4 : ImmobilityState := {st3 with last_pose := some pose}
        if now - st4.last_check_time < st4.check_interval then (none, st4)
        else
          let st5 : ImmobilityState := {st4 with last_check_time := now}
          let immobility_duration := now - st5.last_movement_time
          let risk_level :=
            if immobility_duration > st5.alert_duration then "HIGH"
            else if immobility_duration > st5.warning_duration then "MEDIUM"
            else "LOW"
          if risk_level = "MEDIUM" ∨ risk_level = "HIGH" then
            (some ⟨"immobility", meta.timestamp,
               min 1 (immobility_duration / st5.alert_duration),
               "immobility", meta.frame_id, immobility_duration,
               st5.last_movement_time, risk_level, st5.current_posture, 0,
               st5.posture_change_count⟩, st5)
          else (none, st5)

/-- Witness face bounding box. -/
def fbW : BoundingBox := ⟨0, 0, 10, 10, 1⟩

/-- Witness detection carrying only a face box. -/
def faceDetW : Detection := ⟨fbW, none, some fbW⟩

/-- Witness frame metadata for the vital-signs agent. -/
def vitalsMetaW : FrameMetadata := ⟨1, 0, 100, 100, [faceDetW]⟩

/-- Witness vital-signs state: window length 1, default ranges, interval
elapsed. -/
def vitalsStW : VitalsState :=
  ⟨true, 30, 1, 40, 180, 8, 30, 3/5, 30, ⟨1, []⟩, 0⟩

/-- Witness processed vitals: all three validity conditions hold. -/
def vResW : VitalsResult := ⟨72, 16, 9/10, 1, 1⟩

/-- Square-root oracle for the C10 witness. -/
def sqrtW : ℚ → ℚ := fun _ => 0

/-- Disabled copies of the concrete witness agent states. -/
def fallStD : FallState := {fallStW with enabled := false}

/-- Disabled seizure state. -/
def seizStD : SeizureState := {seizStW with enabled := false}

/-- Disabled vital-signs state. -/
def vitalsStD : VitalsState := {vitalsStW with enabled := false}

/-- Disabled bed-exit state. -/
def bedStD : BedExitState := {bedStW with enabled := false}

/-- Disabled immobility state. -/
def immStD : ImmobilityState :=
  ⟨false, 0, 1/20, 7200, 5400, 60, 15, none, 0, 0, 0, "unknown", ⟨30, []⟩⟩

/-! ## Theorems -/

namespace TemporalBuffer

theorem add_buffer (b : TemporalBuffer α) (x : α) :
    (b.add x).buffer = (b.buffer ++ [x]).drop (b.buffer.length + 1 - b.maxlen) := by
  simp [add]

theorem add_maxlen (b : TemporalBuffer α) (x : α) :
    (b.add x).maxlen = b.maxlen := rfl

theorem addAll_maxlen (b : TemporalBuffer α) (items : List α) :
    (b.addAll items).maxlen = b.maxlen := by
  induction items generalizing b with
  | nil => rfl
  | cons x xs ih => simpa [addAll, List.foldl_cons] using ih (b.add x)

theorem length_add_le (b : TemporalBuffer α) (x : α)
    (h : b.buffer.length ≤ b.maxlen) :
    (b.add x).buffer.length ≤ b.maxlen := by
  simp only [add_buffer, List.length_drop, List.length_append, List.length_cons,
    List.length_nil]
  omega

theorem addAll_buffer (b : TemporalBuffer α) (items : List α)
    (h : b.buffer.length ≤ b.maxlen) :
    (b.addAll items).buffer =
      (b.buffer ++ items).drop (b.buffer.length + items.length - b.maxlen) := by
  induction items generalizing b with
  | nil =>
    simp only [addAll, List.foldl_nil, List.append_nil, List.length_nil]
    have hz : b.buffer.length - b.maxlen = 0 := by omega
    have hz' : b.buffer.length + 0 - b.maxlen = 0 := by omega
    simp [hz, hz']
  | cons x xs ih =>
    have hlen : (b.add x).buffer.length ≤ (b.add x).maxlen := by
      rw [add_maxlen]; exact length_add_le b x h
    have step := ih (b.add x) hlen
    rw [addAll, List.foldl_cons]
    show ((b.add x).addAll xs).buffer = _
    rw [step, add_maxlen, add_buffer]
    rcases le_or_lt (b.buffer.length + 1) b.maxlen with hle | hlt
    · have h0 : b.buffer.length + 1 - b.maxlen = 0 := by omega
      simp only [h0, List.drop_zero, List.length_append, List.length_cons,
        List.length_nil, List.append_assoc, List.cons_append, List.nil_append]
      congr 1
      omega
    · have hAlen : ((b.buffer ++ [x]).drop (b.buffer.length + 1 - b.maxlen)).length
          = b.maxlen := by
        simp only [List.length_drop, List.length_append, List.length_cons,
          List.length_nil]
        omega
      rw [hAlen, Nat.add_sub_cancel_left]
      rw [← List.drop_append_of_le_length (by
        simp only [List.length_append, List.length_cons, List.length_nil]
        omega : b.buffer.length + 1 - b.maxlen ≤ (b.buffer ++ [x]).length)]
      rw [List.drop_drop, List.append_assoc, List.singleton_append]
      congr 1
      simp only [List.length_cons]
      omega

end TemporalBuffer

/-- C8 counterexample: with capacity 2 and inserts `[10, 20, 30]` the size
is 2, so `n = 0` satisfies `n < size`, yet `get_window 0` returns the FULL
buffer `[20, 30]` (the Python slice `[-0:]` is `[0:]`), not the `0` most
recent items `[]` the claim requires for every `n < size`. -/
theorem temporalBuffer_get_window_zero :
    ((TemporalBuffer.empty Nat 2).addAll [10, 20, 30]).get_window 0
      = [20, 30] ∧
    0 < ((TemporalBuffer.empty Nat 2).addAll [10, 20, 30]).size := by
  decide

/-- C8 amended: for the sliding window buffer with capacity `c`, after
inserting any sequence of `k > c` items the size equals `c`, `get_oldest`
returns the `(k−c+1)`-th inserted item, `get_window n` for `n ≥ size`
returns the full buffer in chronological order and for `0 < n < size` the
`n` most recent items in chronological order — while `get_window 0` also
returns the full buffer, an artifact of the `[-0:]` slice — and
`get_latest`/`get_oldest` return `none` rather than raising on an empty
buffer. -/
theorem temporalBuffer_sliding_window {α : Type} (c : Nat) (items : List α)
    (hc : 0 < c) (hk : c < items.length) :
    ((TemporalBuffer.empty α c).addAll items).size = c ∧
    ((TemporalBuffer.empty α c).addAll items).get_oldest
      = items.get? (items.length - c) ∧
    (∀ n, ((TemporalBuffer.empty α c).addAll items).size ≤ n →
      ((TemporalBuffer.empty α c).addAll items).get_window n
        = items.drop (items.length - c)) ∧
    (∀ n, 0 < n → n < ((TemporalBuffer.empty α c).addAll items).size →
      ((TemporalBuffer.empty α c).addAll items).get_window n
        = items.drop (items.length - n)) ∧
    ((TemporalBuffer.empty α c).addAll items).get_window 0
      = items.drop (items.length - c) ∧
    (TemporalBuffer.empty α c).get_latest = none ∧
    (TemporalBuffer.empty α c).get_oldest = none := by
  have hbuf : ((TemporalBuffer.empty α c).addAll items).buffer
      = items.drop (items.length - c) := by
    have := TemporalBuffer.addAll_buffer (TemporalBuffer.empty α c) items
      (by simp [TemporalBuffer.empty])
    simpa [TemporalBuffer.empty] using this
  have hlen : ((TemporalBuffer.empty α c).addAll items).buffer.length = c := by
    rw [hbuf, List.length_drop]
    omega
  refine ⟨hlen, ?_, ?_, ?_, ?_, rfl, rfl⟩
  · rw [TemporalBuffer.get_oldest, hbuf]
    rw [List.head?_eq_getElem?, List.getElem?_drop, Nat.add_zero,
      List.get?_eq_getElem?]
  · intro n hn
    rw [TemporalBuffer.size] at hn
    rw [TemporalBuffer.get_window, if_pos hn, hbuf]
  · intro n hn0 hn
    rw [TemporalBuffer.size, hlen] at hn
    rw [TemporalBuffer.get_window, if_neg (by rw [hlen]; omega),
      if_neg (by omega), hbuf, List.length_drop, List.drop_drop]
    congr 1
    omega
  · rw [TemporalBuffer.get_window, if_neg (by rw [hlen]; omega), if_pos rfl,
      hbuf]

/-- Witness for C8 at capacity 2 and insertion sequence `[10, 20, 30]`. -/
theorem temporalBuffer_sliding_window_witness :
    ((TemporalBuffer.empty Nat 2).addAll [10, 20, 30]).size = 2 ∧
    ((TemporalBuffer.empty Nat 2).addAll [10, 20, 30]).get_oldest
      = [10, 20, 30].get? 1 :=
  ⟨(temporalBuffer_sliding_window 2 [10, 20, 30] (by decide) (by decide)).1,
   (temporalBuffer_sliding_window 2 [10, 20, 30] (by decide) (by decide)).2.1⟩

/-- C1 counterexample: a fall event in a batch where no rule fires (the
default `critical_fall` rule needs an accompanying low-heart-rate vitals
event) produces NO alert at all — the event is silently dropped, because
`_is_covered_by_rules` assumes every non-informational type is rule-covered
regardless of whether any rule actually fired. -/
theorem processEvents_drops_unmatched_fall :
    (processEvents false 100 initialOrchestrator [fallEventEx]).1 = [] := by
  decide

/-- C1 amended: under the default rules, an event is wrapped into an
individual single-event alert (severity and message from the type lookup
tables) exactly when its type is one of the two informational ones
(`emotion_detection`, `vital_signs`); an event of any other type that no
fired rule bundles — here a lone fall event — yields no alert at all. -/
theorem processEvents_individual_only_informational (now : ℚ)
    (nighttime : Bool) (e : BaseEvent) :
    (e.event_type = "emotion_detection" ∨ e.event_type = "vital_signs" →
      (processEvents nighttime now initialOrchestrator [e]).1
        = [createIndividualAlert e]) ∧
    (e.event_type = "fall_detection" →
      (processEvents nighttime now initialOrchestrator [e]).1 = []) := by
  constructor
  · intro h
    rcases h with h | h <;>
      simp [processEvents, initialOrchestrator, defaultRules, applyRule,
        evalConditions, isCoveredByRules, considerAlert, isDuplicate,
        List.filter_cons, List.filter_nil, h]
  · intro h
    simp [processEvents, initialOrchestrator, defaultRules, applyRule,
      evalConditions, isCoveredByRules, considerAlert, isDuplicate,
      List.filter_cons, List.filter_nil, h]

/-- Witness for the amended C1 at a concrete emotion event and a concrete
fall event. -/
theorem processEvents_individual_only_informational_witness :
    (processEvents false 100 initialOrchestrator [emotionEventEx]).1
      = [createIndividualAlert emotionEventEx] ∧
    (processEvents false 100 initialOrchestrator [fallEventEx]).1 = [] :=
  ⟨(processEvents_individual_only_informational 100 false emotionEventEx).1
      (Or.inl rfl),
   (processEvents_individual_only_informational 100 false fallEventEx).2 rfl⟩

/-- C2 counterexample: a `process_events` tick with an EMPTY batch returns
early and performs no history compaction, so after the tick the recorded
history still contains an alert 100 s old — far older than twice the 5 s
deduplication window. -/
theorem processEvents_empty_tick_skips_compaction :
    (processEvents false 100 staleStateEx []).2.recent_alerts = [staleAlertEx]
      ∧ (100 : ℚ) - staleAlertEx.timestamp > 2 * staleStateEx.deduplication_window := by
  constructor
  · rfl
  · norm_num [staleAlertEx, staleStateEx]

/-- C2 amended: on every `process_events` tick whose batch is nonempty,
(a) the post-tick history contains no alert older than twice the
deduplication window, and (b) a produced alert is discarded — output and
history both unchanged — whenever a recorded alert with an identical
message lies within the deduplication window of the current time.  An
empty batch returns early without compaction. -/
theorem processEvents_dedup_invariant (nighttime : Bool) (now : ℚ)
    (st : OrchestratorState) (events : List BaseEvent) (h : events ≠ []) :
    (∀ a ∈ (processEvents nighttime now st events).2.recent_alerts,
        now - a.timestamp < st.deduplication_window * 2) ∧
    (∀ (out recent : List ConsolidatedAlert) (a r : ConsolidatedAlert),
        r ∈ recent →
        now - r.timestamp < st.deduplication_window →
        r.message = a.message →
        considerAlert st.deduplication_window now (out, recent) a
          = (out, recent)) := by
  constructor
  · intro a ha
    simp only [processEvents, if_neg h] at ha
    exact of_decide_eq_true (List.mem_filter.mp ha).2
  · intro out recent a r hr hwin hmsg
    have hdup : isDuplicate st.deduplication_window recent now a = true :=
      List.any_eq_true.mpr ⟨r, hr, by simp [hwin, hmsg]⟩
    simp [considerAlert, hdup]

/-- Witness for the amended C2: after a nonempty tick at time 100 the one
recorded alert is within twice the window. -/
theorem processEvents_dedup_invariant_witness :
    (100 : ℚ) - (createIndividualAlert emotionEventEx).timestamp
      < initialOrchestrator.deduplication_window * 2 :=
  (processEvents_dedup_invariant false 100 initialOrchestrator [emotionEventEx]
      (by decide)).1 (createIndividualAlert emotionEventEx)
    (by
      rw [show (processEvents false 100 initialOrchestrator
          [emotionEventEx]).2.recent_alerts
          = [createIndividualAlert emotionEventEx] from by
        simp [processEvents, initialOrchestrator, defaultRules, applyRule,
          evalConditions, isCoveredByRules, considerAlert, isDuplicate,
          createIndividualAlert, emotionEventEx, individualLevel,
          individualMessage, List.filter_cons, List.filter_nil]]
      exact List.mem_singleton.mpr rfl)

theorem buildTrajectories_eq (keypoint_indices : List Nat)
    (buffer : List PoseData) :
    buildTrajectories keypoint_indices buffer =
      if ∀ p ∈ buffer, visiblePositions p keypoint_indices ≠ []
      then some (buffer.map
        (fun p => meanPosition (visiblePositions p keypoint_indices)))
      else none := by
  induction buffer with
  | nil => simp [buildTrajectories]
  | cons p rest ih =>
    rw [buildTrajectories, ih]
    by_cases hp : visiblePositions p keypoint_indices = []
    · simp [hp]
    · by_cases hrest : ∀ q ∈ rest, visiblePositions q keypoint_indices ≠ []
      · simp [hp, hrest, List.isEmpty_iff]
      · simp [hp, hrest, List.isEmpty_iff]

/-- C3 counterexample: the second buffered frame has a limb keypoint with
visibility 0 < 0.5, so by the claim the limb should be excluded from the
analysis entirely (`None`); the code instead keeps the limb and lets that
frame contribute the mean (1, 1) of only its two VISIBLE keypoints — not
the mean (34, 34) of all three. -/
theorem extractTrajectories_partial_frame_kept :
    extractTrajectories 2 [exPoseAllVisible, exPosePartial] [0, 1, 2]
      = some [(2, 2), (1, 1)] ∧
    (exPosePartial.keypoints.get? 2).map Keypoint.visibility = some 0 := by
  constructor
  · norm_num [extractTrajectories, buildTrajectories, visiblePositions,
      meanPosition, exPoseAllVisible, exPosePartial, List.filterMap]
  · rfl

theorem fallClassify_eq_spec (atan2deg : ℚ → ℚ → ℚ) (st : FallState)
    (pose : PoseData) (frame_height : ℚ) :
    fallClassify (analyzeFallIndicators atan2deg st pose frame_height) =
      (classifyFallSpec st.fall_angle_threshold st.hip_height_threshold
        st.velocity_threshold
        (analyzeFallIndicators atan2deg st pose frame_height).torso_angle
        (analyzeFallIndicators atan2deg st pose frame_height).hip_height
        (analyzeFallIndicators atan2deg st pose frame_height).vertical_velocity).map
        (fun ft =>
          (ft, fallConfidenceOf
            (analyzeFallIndicators atan2deg st pose frame_height) ft)) := by
  set ind := analyzeFallIndicators atan2deg st pose frame_height with hind
  have hta : ind.torso_angle =
      |atan2deg (((kpAt pose 11).x + (kpAt pose 12).x) / 2 -
          ((kpAt pose 23).x + (kpAt pose 24).x) / 2)
        (((kpAt pose 11).y + (kpAt pose 12).y) / 2 -
          ((kpAt pose 23).y + (kpAt pose 24).y) / 2)| := rfl
  have hL : ind.is_lying = decide (ind.hip_height < st.hip_height_threshold ∧
      ind.torso_angle > st.fall_angle_threshold) := by
    rw [hind]
    simp [analyzeFallIndicators, Bool.and_eq_true, decide_eq_true_eq]
  have hF : ind.is_falling =
      decide (ind.vertical_velocity > st.velocity_threshold ∧
        ind.torso_angle > st.fall_angle_threshold / 2) := by
    rw [hind]
    simp [analyzeFallIndicators, Bool.and_eq_true, decide_eq_true_eq]
  have hN : ind.is_near_fall =
      decide (ind.vertical_velocity > 0.7 * st.velocity_threshold ∧
        ind.torso_angle > 0.7 * st.fall_angle_threshold) := by
    rw [hind]
    simp [analyzeFallIndicators, Bool.and_eq_true, decide_eq_true_eq,
      mul_comm]
  rw [fallClassify, classifyFallSpec, hL, hF, hN]
  by_cases h1 : ind.hip_height < st.hip_height_threshold ∧
      ind.torso_angle > st.fall_angle_threshold
  · simp [h1, fallConfidenceOf]
  · by_cases h2 : ind.vertical_velocity > st.velocity_threshold ∧
        ind.torso_angle > st.fall_angle_threshold / 2
    · simp [h1, h2, fallConfidenceOf]
    · by_cases h3 : ind.vertical_velocity > 0.7 * st.velocity_threshold ∧
          ind.torso_angle > 0.7 * st.fall_angle_threshold
      · simp [h1, h2, h3, fallConfidenceOf]
      · simp [h1, h2, h3]

/-- C4: for every fall-agent detect call with a full pose window and the
cooldown elapsed, classification follows the claim's priority order (lying,
else fall, else near-fall, with the stated threshold comparisons via
`classifyFallSpec`), an event is emitted exactly when a classification
exists and its confidence exceeds the configurable threshold, and emission
resets the cooldown clock to the current time while a non-emitting call
leaves it unchanged. -/
theorem fallDetect_priority_classification (atan2deg : ℚ → ℚ → ℚ) (now : ℚ)
    (st : FallState) (meta : FrameMetadata) (detection : Detection)
    (rest : List Detection) (pose : PoseData)
    (hen : st.enabled = true)
    (hdet : meta.detections = detection :: rest)
    (hpose : detection.pose = some pose)
    (hfull : ¬ (fallStateAfterSample st pose meta.timestamp
        detection.bbox).pose_buffer.size < st.sequence_length)
    (hcool : ¬ now - st.last_event_time < st.event_cooldown) :
    ((fallDetect atan2deg now st meta).1.isSome = true ↔
      ∃ ft, classifyFallSpec st.fall_angle_threshold st.hip_height_threshold
          st.velocity_threshold
          (analyzeFallIndicators atan2deg
            (fallStateAfterSample st pose meta.timestamp detection.bbox) pose
            meta.height).torso_angle
          (analyzeFallIndicators atan2deg
            (fallStateAfterSample st pose meta.timestamp detection.bbox) pose
            meta.height).hip_height
          (analyzeFallIndicators atan2deg
            (fallStateAfterSample st pose meta.timestamp detection.bbox) pose
            meta.height).vertical_velocity = some ft ∧
        fallConfidenceOf (analyzeFallIndicators atan2deg
          (fallStateAfterSample st pose meta.timestamp detection.bbox) pose
          meta.height) ft > st.confidence_threshold) ∧
    (∀ ev, (fallDetect atan2deg now st meta).1 = some ev →
      classifyFallSpec st.fall_angle_threshold st.hip_height_threshold
          st.velocity_threshold
          (analyzeFallIndicators atan2deg
            (fallStateAfterSample st pose meta.timestamp detection.bbox) pose
            meta.height).torso_angle
          (analyzeFallIndicators atan2deg
            (fallStateAfterSample st pose meta.timestamp detection.bbox) pose
            meta.height).hip_height
          (analyzeFallIndicators atan2deg
            (fallStateAfterSample st pose meta.timestamp detection.bbox) pose
            meta.height).vertical_velocity = some ev.fall_type ∧
        ev.confidence = fallConfidenceOf (analyzeFallIndicators atan2deg
          (fallStateAfterSample st pose meta.timestamp detection.bbox) pose
          meta.height) ev.fall_type ∧
        ev.confidence > st.confidence_threshold ∧
        (fallDetect atan2deg now st meta).2.last_event_time = now) ∧
    ((fallDetect atan2deg now st meta).1 = none →
      (fallDetect atan2deg now st meta).2.last_event_time
        = st.last_event_time) := by
  have hs : (fallStateAfterSample st pose meta.timestamp
      detection.bbox).sequence_length = st.sequence_length := rfl
  have hl : (fallStateAfterSample st pose meta.timestamp
      detection.bbox).last_event_time = st.last_event_time := rfl
  have hc : (fallStateAfterSample st pose meta.timestamp
      detection.bbox).confidence_threshold = st.confidence_threshold := rfl
  have he : (fallStateAfterSample st pose meta.timestamp
      detection.bbox).event_cooldown = st.event_cooldown := rfl
  have hfat : (fallStateAfterSample st pose meta.timestamp
      detection.bbox).fall_angle_threshold = st.fall_angle_threshold := rfl
  have hhh : (fallStateAfterSample st pose meta.timestamp
      detection.bbox).hip_height_threshold = st.hip_height_threshold := rfl
  have hv : (fallStateAfterSample st pose meta.timestamp
      detection.bbox).velocity_threshold = st.velocity_threshold := rfl
  simp only [fallDetect, hdet, hen, Bool.not_true, Bool.false_eq_true,
    if_false, hpose]
  rw [if_neg (by rw [hs]; exact hfull), if_neg (by rw [hl, he]; exact hcool)]
  rw [fallClassify_eq_spec]
  simp only [hfat, hhh, hv, hc, hl, he]
  rcases hcls : classifyFallSpec st.fall_angle_threshold
      st.hip_height_threshold st.velocity_threshold
      (analyzeFallIndicators atan2deg
        (fallStateAfterSample st pose meta.timestamp detection.bbox) pose
        meta.height).torso_angle
      (analyzeFallIndicators atan2deg
        (fallStateAfterSample st pose meta.timestamp detection.bbox) pose
        meta.height).hip_height
      (analyzeFallIndicators atan2deg
        (fallStateAfterSample st pose meta.timestamp detection.bbox) pose
        meta.height).vertical_velocity with _ | ft
  · simp only [Option.map_none']
    refine ⟨by simp, ?_, ?_⟩
    · intro ev hev
      simp at hev
    · intro _
      exact hl
  · simp only [Option.map_some']
    by_cases hconf : fallConfidenceOf (analyzeFallIndicators atan2deg
        (fallStateAfterSample st pose meta.timestamp detection.bbox) pose
        meta.height) ft > st.confidence_threshold
    · refine ⟨by simp [hconf], ?_, ?_⟩
      · intro ev hev
        simp only [if_pos hconf] at hev
        have hev' := Option.some.inj hev
        subst hev'
        exact ⟨rfl, rfl, hconf, by simp [if_pos hconf]⟩
      · intro hnone
        simp [if_pos hconf] at hnone
    · refine ⟨by simp [hconf], ?_, ?_⟩
      · intro ev hev
        simp [if_neg hconf] at hev
      · intro hnone
        simp only [if_neg hconf]
        exact hl

/-- Witness for C4: on the concrete lying pose the detect call emits. -/
theorem fallDetect_priority_classification_witness :
    (fallDetect atan2degW 0 fallStW fallMetaW).1.isSome = true :=
  (fallDetect_priority_classification atan2degW 0 fallStW fallMetaW
      detectionW [] poseW rfl rfl rfl (by decide) (by norm_num [fallStW])).1.mpr
    ⟨"lying",
     by norm_num [classifyFallSpec, analyzeFallIndicators, atan2degW,
       computeVerticalVelocity, kpAt, fallStateAfterSample, fallStW, poseW,
       fallMetaW, detectionW, TemporalBuffer.add, TemporalBuffer.size,
       TemporalBuffer.empty, TemporalBuffer.get_oldest,
       TemporalBuffer.get_latest],
     by norm_num [fallConfidenceOf, analyzeFallIndicators, atan2degW,
       computeVerticalVelocity, kpAt, fallStateAfterSample, fallStW, poseW,
       fallMetaW, detectionW, TemporalBuffer.add, TemporalBuffer.size,
       TemporalBuffer.empty, TemporalBuffer.get_oldest,
       TemporalBuffer.get_latest]⟩

/-- C5: with a calibrated bed region and a posed detection, the bed-exit
agent emits an event only when the classified state differs from the
stored current state and lies in the configured alert set; the event
carries the previous state, a true transition flag and a duration-in-state
of 0, the stored state advances to the classified state on emission (so a
repeat of the same classification cannot emit again), and a frame whose
classification equals the stored state emits nothing and leaves the state
unchanged. -/
theorem bedExitDetect_transition_alerts (atan2deg : ℚ → ℚ → ℚ) (now : ℚ)
    (st : BedExitState) (meta : FrameMetadata) (br : BoundingBox)
    (detection : Detection) (rest : List Detection) (pose : PoseData)
    (hen : st.enabled = true)
    (hbed : st.bed_region = some br)
    (hdet : meta.detections = detection :: rest)
    (hpose : detection.pose = some pose) :
    (∀ ev st', bedExitDetect atan2deg now st meta = (some ev, st') →
      ev.state = determineState atan2deg st detection.bbox pose meta.height ∧
      ev.state ≠ st.current_state ∧
      ev.state ∈ st.alert_on_states ∧
      ev.previous_state = st.current_state ∧
      ev.transition = true ∧
      ev.duration_in_state = 0 ∧
      st'.current_state = ev.state) ∧
    (determineState atan2deg st detection.bbox pose meta.height
        = st.current_state →
      (bedExitDetect atan2deg now st meta).1 = none ∧
      (bedExitDetect atan2deg now st meta).2.current_state
        = st.current_state) := by
  simp only [bedExitDetect, hen, Bool.not_true, Bool.false_eq_true, if_false,
    hbed, hdet, hpose]
  have hds : determineState atan2deg
      ⟨true, st.frame_count + 1, some br, st.transition_confidence,
       st.sitting_angle_threshold, st.standing_height_threshold,
       st.alert_on_states, st.current_state, st.state_start_time,
       st.last_transition_time, st.calibration_frames, st.calibration_bboxes⟩
      detection.bbox pose meta.height
      = determineState atan2deg st detection.bbox pose meta.height := by
    rw [determineState, determineState, hbed]
  simp only [hds]
  by_cases hne : determineState atan2deg st detection.bbox pose meta.height
      = st.current_state
  · rw [if_neg (by simpa using hne)]
    refine ⟨?_, fun _ => ⟨rfl, rfl⟩⟩
    intro ev st' hev
    exact absurd (congrArg Prod.fst hev) (by simp)
  · rw [if_pos (by simpa using hne)]
    by_cases halert : determineState atan2deg st detection.bbox pose
        meta.height ∈ st.alert_on_states
    · rw [if_pos halert]
      refine ⟨?_, fun hc => absurd hc hne⟩
      intro ev st' hev
      have h1 := congrArg Prod.fst hev
      have h2 := congrArg Prod.snd hev
      simp only at h1 h2
      have hev' := Option.some.inj h1.symm
      subst hev'
      exact ⟨rfl, hne, halert, rfl, rfl, rfl, by rw [← h2]⟩
    · rw [if_neg halert]
      refine ⟨?_, fun hc => absurd hc hne⟩
      intro ev st' hev
      exact absurd (congrArg Prod.fst hev) (by simp)

/-- Witness for C5: a frame classified as the stored state emits nothing
and leaves the state machine in place. -/
theorem bedExitDetect_transition_alerts_witness :
    (bedExitDetect atan2degBW 0 bedStW bedMetaW).1 = none ∧
    (bedExitDetect atan2degBW 0 bedStW bedMetaW).2.current_state
      = bedStW.current_state :=
  (bedExitDetect_transition_alerts atan2degBW 0 bedStW bedMetaW bedBoxW
      bedDetW [] poseW rfl rfl rfl rfl).2
    (by norm_num [determineState, compute_iou, kpAt, bedStW, bedDetW,
      bedBoxW, bedMetaW, poseW, atan2degBW])

/-- C6: once the seizure agent reaches its analysis stage (pose present,
full buffer, cooldown elapsed), a frame whose per-frame seizure condition
is false resets the episode start to null and emits nothing; a frame whose
condition is true keeps the episode start (initializing it to the current
time on the first such frame) and emits exactly when the wall-clock time
since the episode start exceeds the duration threshold, so no event can be
emitted on the very frame an episode begins. -/
theorem seizureDetect_duration_gating (indicators : SeizureIndicators) (now : ℚ)
    (st : SeizureState) (meta : FrameMetadata) (detection : Detection)
    (rest : List Detection) (pose : PoseData)
    (hen : st.enabled = true)
    (hdet : meta.detections = detection :: rest)
    (hpose : detection.pose = some pose)
    (hfull : ¬ (seizureStateAfterSample st pose
        meta.timestamp).pose_buffer.size < st.buffer_size)
    (hcool : ¬ now - st.last_event_time < st.event_cooldown) :
    (indicators.seizure_detected = false →
      (seizureDetect indicators now st meta).1 = none ∧
      (seizureDetect indicators now st meta).2.seizure_start_time = none) ∧
    (indicators.seizure_detected = true →
      ((seizureDetect indicators now st meta).1.isSome = true ↔
        now - st.seizure_start_time.getD now > st.duration_threshold) ∧
      (seizureDetect indicators now st meta).2.seizure_start_time
        = some (st.seizure_start_time.getD now)) ∧
    (st.seizure_start_time = none → 0 ≤ st.duration_threshold →
      (seizureDetect indicators now st meta).1 = none) := by
  have hbs : (seizureStateAfterSample st pose meta.timestamp).buffer_size
      = st.buffer_size := rfl
  have hlet : (seizureStateAfterSample st pose meta.timestamp).last_event_time
      = st.last_event_time := rfl
  have hec : (seizureStateAfterSample st pose meta.timestamp).event_cooldown
      = st.event_cooldown := rfl
  have hst : (seizureStateAfterSample st pose meta.timestamp).seizure_start_time
      = st.seizure_start_time := rfl
  have hdt : (seizureStateAfterSample st pose meta.timestamp).duration_threshold
      = st.duration_threshold := rfl
  simp only [seizureDetect, hen, Bool.not_true, Bool.false_eq_true, if_false,
    hdet, hpose]
  rw [if_neg (by rw [hbs]; exact hfull), if_neg (by rw [hlet, hec]; exact hcool)]
  rcases hsd : indicators.seizure_detected with _ | _
  · simp
  · rw [if_pos rfl]
    simp only [hst, hdt]
    by_cases hdur : now - st.seizure_start_time.getD now > st.duration_threshold
    · rw [if_pos hdur]
      refine ⟨fun hc => absurd hc (by simp), fun _ => ⟨by simp [hdur], rfl⟩, ?_⟩
      intro hnone hth
      rw [hnone] at hdur
      simp only [Option.getD_none, sub_self] at hdur
      exact absurd hdur (not_lt.mpr hth)
    · rw [if_neg hdur]
      refine ⟨fun hc => absurd hc (by simp), fun _ => ⟨by simp [hdur], rfl⟩,
        fun _ _ => rfl⟩

/-- Witness for C6: with the episode 10 s old and the threshold at 5 s the
call emits. -/
theorem seizureDetect_duration_gating_witness :
    (seizureDetect indW 0 seizStW fallMetaW).1.isSome = true :=
  ((seizureDetect_duration_gating indW 0 seizStW fallMetaW detectionW []
      poseW rfl rfl rfl (by decide) (by norm_num [seizStW])).2.1 rfl).1.mpr
    (by norm_num [seizStW])

/-- C7: whenever a vital-signs detect call reaches the rPPG processing
stage, it emits an event if and only if the processed window yields a
heart rate in the configured range, a respiratory rate in the configured
range and a signal quality at or above the threshold; an unavailable
processing result (None) produces no event, and in every discard case the
total function simply returns no event rather than raising. -/
theorem vitalsDetect_emission_iff (processResult : Option VitalsResult) (st : VitalsState)
    (frame_width frame_height : ℤ) (meta : FrameMetadata)
    (hreach : vitalsReaches st frame_width frame_height meta) :
    (∀ v, processResult = some v →
      ((vitalsDetect processResult st frame_width frame_height meta).1.isSome
          = true ↔
        (st.hr_lo ≤ v.heart_rate ∧ v.heart_rate ≤ st.hr_hi) ∧
        (st.rr_lo ≤ v.respiratory_rate ∧ v.respiratory_rate ≤ st.rr_hi) ∧
        v.signal_quality ≥ st.signal_quality_threshold)) ∧
    (processResult = none →
      (vitalsDetect processResult st frame_width frame_height meta).1
        = none) := by
  obtain ⟨hen, detection, rest, face_bbox, hdet, hface, hcrop, hint, hbuf⟩ :=
    hreach
  simp only [vitalsDetect, hen, Bool.not_true, Bool.false_eq_true, if_false,
    hdet, hface]
  rw [if_neg hcrop]
  rw [if_neg (by exact_mod_cast hint), if_neg (by exact hbuf)]
  constructor
  · intro v hv
    subst hv
    by_cases hvalid : (st.hr_lo ≤ v.heart_rate ∧ v.heart_rate ≤ st.hr_hi) ∧
        (st.rr_lo ≤ v.respiratory_rate ∧ v.respiratory_rate ≤ st.rr_hi) ∧
        v.signal_quality ≥ st.signal_quality_threshold
    · simp only [if_pos hvalid]
      simp [hvalid]
    · simp only [if_neg hvalid]
      simp [hvalid]
  · intro hv
    subst hv
    rfl

/-- Helper: the size of a buffer after one append. -/
theorem temporalBuffer_size_add (b : TemporalBuffer α) (x : α) :
    (b.add x).size = min (b.size + 1) b.maxlen := by
  simp only [TemporalBuffer.add, TemporalBuffer.size, List.length_drop,
    List.length_append, List.length_cons, List.length_nil]
  omega

/-- C9: a vital-signs detect call that emits no event leaves
`last_update_frame` unchanged, and consequently once a call has reached
the rPPG processing stage and discarded its result, any subsequent frame
carrying a face with a valid crop reaches the processing stage again
(interval and fullness gates keep passing) instead of waiting out the
update interval. -/
theorem vitalsDetect_lastUpdate_reprocessing (processResult : Option VitalsResult) (st : VitalsState)
    (fw fh : ℤ) (meta : FrameMetadata) :
    ((vitalsDetect processResult st fw fh meta).1 = none →
      (vitalsDetect processResult st fw fh meta).2.last_update_frame
        = st.last_update_frame) ∧
    (vitalsReaches st fw fh meta →
      (vitalsDetect processResult st fw fh meta).1 = none →
      st.face_roi_buffer.maxlen = st.window_size →
      ∀ (meta' : FrameMetadata) (fw' fh' : ℤ) (d' : Detection)
        (r' : List Detection) (fb' : BoundingBox),
        meta'.detections = d' :: r' →
        d'.face_bbox = some fb' →
        ¬ ((cropOf fw' fh' fb').x2 ≤ (cropOf fw' fh' fb').x1 ∨
           (cropOf fw' fh' fb').y2 ≤ (cropOf fw' fh' fb').y1) →
        vitalsReaches (vitalsDetect processResult st fw fh meta).2 fw' fh'
          meta') := by
  constructor
  · intro hnone
    rcases hen : st.enabled with _ | _
    · simp [vitalsDetect, hen]
    · rcases hdet : meta.detections with _ | ⟨detection, rest⟩
      · simp [vitalsDetect, hen, hdet]
      · rcases hface : detection.face_bbox with _ | fb
        · simp [vitalsDetect, hen, hdet, hface]
        · by_cases hcrop : (cropOf fw fh fb).x2 ≤ (cropOf fw fh fb).x1 ∨
              (cropOf fw fh fb).y2 ≤ (cropOf fw fh fb).y1
          · simp [vitalsDetect, hen, hdet, hface, hcrop]
          · by_cases hint' : (st.frame_count : ℤ) + 1 - st.last_update_frame
                < st.update_interval
            · simp [vitalsDetect, hen, hdet, hface, hcrop, hint']
            · by_cases hbuf' : (st.face_roi_buffer.add (cropOf fw fh fb)).size
                  < st.window_size
              · simp [vitalsDetect, hen, hdet, hface, hcrop, hint', hbuf']
              · rcases processResult with _ | v
                · simp [vitalsDetect, hen, hdet, hface, hcrop, hint', hbuf']
                · by_cases hvalid : (st.hr_lo ≤ v.heart_rate ∧
                      v.heart_rate ≤ st.hr_hi) ∧
                      (st.rr_lo ≤ v.respiratory_rate ∧
                        v.respiratory_rate ≤ st.rr_hi) ∧
                      v.signal_quality ≥ st.signal_quality_threshold
                  · exfalso
                    simp [vitalsDetect, hen, hdet, hface, hcrop, hint', hbuf',
                      hvalid] at hnone
                  · simp [vitalsDetect, hen, hdet, hface, hcrop, hint', hbuf',
                      hvalid]
  · intro hreach hnone hmax meta' fw' fh' d' r' fb' hdet' hface' hcrop'
    obtain ⟨hen, detection, rest, face_bbox, hdet, hface, hcrop, hint, hbuf⟩ :=
      hreach
    have hst2 : (vitalsDetect processResult st fw fh meta).2 =
        vitalsStateAfterSample st (cropOf fw fh face_bbox) := by
      rcases processResult with _ | v
      · rw [vitalsDetect, if_neg (by simp [hen]), hdet]
        dsimp only
        rw [hface]
        dsimp only
        rw [if_neg hcrop, if_neg (by exact_mod_cast hint),
          if_neg (by exact hbuf)]
        rfl
      · by_cases hvalid : (st.hr_lo ≤ v.heart_rate ∧
            v.heart_rate ≤ st.hr_hi) ∧
            (st.rr_lo ≤ v.respiratory_rate ∧
              v.respiratory_rate ≤ st.rr_hi) ∧
            v.signal_quality ≥ st.signal_quality_threshold
        · exfalso
          simp [vitalsDetect, hen, hdet, hface, hcrop,
            (by exact_mod_cast hint : ¬ ((st.frame_count : ℤ) + 1
              - st.last_update_frame < st.update_interval)),
            hbuf, hvalid] at hnone
        · rw [vitalsDetect, if_neg (by simp [hen]), hdet]
          dsimp only
          rw [hface]
          dsimp only
          rw [if_neg hcrop, if_neg (by exact_mod_cast hint),
            if_neg (by exact hbuf), if_neg hvalid]
          rfl
    rw [hst2]
    have hsz : (st.face_roi_buffer.add (cropOf fw fh face_bbox)).size
        = st.window_size := by
      have h1 := temporalBuffer_size_add st.face_roi_buffer (cropOf fw fh face_bbox)
      have h2 := Nat.not_lt.mp hbuf
      omega
    have hml : (st.face_roi_buffer.add (cropOf fw fh face_bbox)).maxlen
        = st.window_size := by
      rw [TemporalBuffer.add_maxlen]; exact hmax
    refine ⟨hen, d', r', fb', hdet', hface', hcrop', ?_, ?_⟩
    · intro hc
      apply hint
      have hfc : (vitalsStateAfterSample st
          (cropOf fw fh face_bbox)).frame_count = st.frame_count + 1 := rfl
      have hlu : (vitalsStateAfterSample st
          (cropOf fw fh face_bbox)).last_update_frame
          = st.last_update_frame := rfl
      have hui : (vitalsStateAfterSample st
          (cropOf fw fh face_bbox)).update_interval
          = st.update_interval := rfl
      rw [hfc, hlu, hui] at hc
      push_cast at hc ⊢
      omega
    · intro hc
      have hb : (vitalsStateAfterSample st
          (cropOf fw fh face_bbox)).face_roi_buffer
          = st.face_roi_buffer.add (cropOf fw fh face_bbox) := rfl
      have hw : (vitalsStateAfterSample st
          (cropOf fw fh face_bbox)).window_size = st.window_size := rfl
      rw [hb, hw, temporalBuffer_size_add, hsz, hml] at hc
      omega

/-- C10: for each concrete agent (fall, seizure, vital signs, bed exit,
immobility), a detect call on a disabled agent returns no event and the
exact unchanged state, for every input frame, metadata and oracle. -/
theorem disabledAgents_noop (atan2deg : ℚ → ℚ → ℚ) (sqrtFn : ℚ → ℚ) (now : ℚ)
    (indicators : SeizureIndicators) (processResult : Option VitalsResult)
    (fw fh : ℤ) (meta : FrameMetadata) (fst : FallState) (sst : SeizureState)
    (vst : VitalsState) (bst : BedExitState) (ist : ImmobilityState) :
    (fst.enabled = false →
      fallDetect atan2deg now fst meta = (none, fst)) ∧
    (sst.enabled = false →
      seizureDetect indicators now sst meta = (none, sst)) ∧
    (vst.enabled = false →
      vitalsDetect processResult vst fw fh meta = (none, vst)) ∧
    (bst.enabled = false →
      bedExitDetect atan2deg now bst meta = (none, bst)) ∧
    (ist.enabled = false →
      immobilityDetect atan2deg sqrtFn now ist meta = (none, ist)) :=
  ⟨fun h => by rw [fallDetect, if_pos (by rw [h]; rfl)],
   fun h => by rw [seizureDetect, if_pos (by rw [h]; rfl)],
   fun h => by rw [vitalsDetect, if_pos (by rw [h]; rfl)],
   fun h => by rw [bedExitDetect, if_pos (by rw [h]; rfl)],
   fun h => by rw [immobilityDetect, if_pos (by rw [h]; rfl)]⟩

/-- Gate conditions hold at the witness state and frame. -/
theorem vitalsReachesW : vitalsReaches vitalsStW 100 100 vitalsMetaW :=
  ⟨rfl, faceDetW, [], fbW, rfl, rfl, by decide, by decide, by decide⟩

/-- Witness for C7: the valid processed window emits. -/
theorem vitalsDetect_emission_iff_witness :
    (vitalsDetect (some vResW) vitalsStW 100 100 vitalsMetaW).1.isSome
      = true :=
  ((vitalsDetect_emission_iff (some vResW) vitalsStW 100 100 vitalsMetaW
      vitalsReachesW).1 vResW rfl).mpr
    (by norm_num [vitalsStW, vResW])

/-- Witness for C9: after a reached-and-discarded window (oracle `none`),
the successor state still reaches processing on the same kind of frame. -/
theorem vitalsDetect_lastUpdate_reprocessing_witness :
    vitalsReaches (vitalsDetect none vitalsStW 100 100 vitalsMetaW).2
      100 100 vitalsMetaW :=
  (vitalsDetect_lastUpdate_reprocessing none vitalsStW 100 100
      vitalsMetaW).2 vitalsReachesW (by decide) rfl vitalsMetaW 100 100
    faceDetW [] fbW rfl rfl (by decide)

/-- Witness for C10: each disabled agent returns no event and its state
verbatim on a concrete frame. -/
theorem disabledAgents_noop_witness :
    fallDetect atan2degW 0 fallStD fallMetaW = (none, fallStD) ∧
    seizureDetect indW 0 seizStD fallMetaW = (none, seizStD) ∧
    vitalsDetect none vitalsStD 100 100 fallMetaW = (none, vitalsStD) ∧
    bedExitDetect atan2degW 0 bedStD fallMetaW = (none, bedStD) ∧
    immobilityDetect atan2degW sqrtW 0 immStD fallMetaW = (none, immStD) :=
  ⟨(disabledAgents_noop atan2degW sqrtW 0 indW none 100 100 fallMetaW
      fallStD seizStD vitalsStD bedStD immStD).1 rfl,
   (disabledAgents_noop atan2degW sqrtW 0 indW none 100 100 fallMetaW
      fallStD seizStD vitalsStD bedStD immStD).2.1 rfl,
   (disabledAgents_noop atan2degW sqrtW 0 indW none 100 100 fallMetaW
      fallStD seizStD vitalsStD bedStD immStD).2.2.1 rfl,
   (disabledAgents_noop atan2degW sqrtW 0 indW none 100 100 fallMetaW
      fallStD seizStD vitalsStD bedStD immStD).2.2.2.1 rfl,
   (disabledAgents_noop atan2degW sqrtW 0 indW none 100 100 fallMetaW
      fallStD seizStD vitalsStD bedStD immStD).2.2.2.2 rfl⟩

/-- C3 amended: the analyzed time series for a limb is the per-frame mean
position of the limb keypoints whose visibility exceeds 0.5; a frame
aborts the limb — excluding it from the FFT analysis entirely rather than
interpolating — exactly when NONE of the limb's keypoints is visible in
that frame (not when ANY single keypoint is occluded), and the extraction
also returns nothing when fewer than `buffer_size` frames are buffered. -/
theorem extractTrajectories_characterization (buffer_size : Nat)
    (buffer : List PoseData) (keypoint_indices : List Nat) :
    extractTrajectories buffer_size buffer keypoint_indices =
      if (∀ p ∈ buffer, visiblePositions p keypoint_indices ≠ []) ∧
          buffer_size ≤ buffer.length
      then some (buffer.map
        (fun p => meanPosition (visiblePositions p keypoint_indices)))
      else none := by
  rw [extractTrajectories, buildTrajectories_eq]
  by_cases hall : ∀ p ∈ buffer, visiblePositions p keypoint_indices ≠ []
  · rw [if_pos hall, Option.some_bind, List.length_map]
    by_cases hlen : buffer_size ≤ buffer.length
    · rw [if_neg (Nat.not_lt.mpr hlen), if_pos ⟨hall, hlen⟩]
    · rw [if_pos (Nat.not_le.mp hlen), if_neg (fun hc => hlen hc.2)]
  · rw [if_neg hall, Option.none_bind, if_neg (fun hc => hall hc.1)]

end PMS
